import Mathlib

/-!
Verification of `src/ranger/gui/ui.py` (class `UI`) against its
natural-language specification.

The Python class is shallowly embedded: the mutable session state touched by
`UI.initialize` / `UI.suspend` / `UI.set_load_mode` becomes the structure
`SessionState` with explicit state-passing functions, and the input/dispatch
path (`UI.handle_input` / `UI.handle_key`) becomes functions over a
`DispState`, with the external collaborators (widget tree `press`, the
KeyBuffer's `failure`/`done`/`command` resolver, settings) passed in as an
`Env` of pure parameters.  Key codes are `Int` (curses `getch` returns `-1`
for "no key").
-/

namespace RangerUI

/-- Terminal/session state touched by `UI.initialize` (ui.py:53-83),
`UI.suspend` (ui.py:85-95) and `UI.set_load_mode` (ui.py:97-108).
`setupCount` instruments the one-time `setup()` hook (ui.py:80-82): it counts
how many times the hook has fired. -/
structure SessionState where
  loadMode : Bool
  isSetUp : Bool
  setupCount : Nat
  keypadOn : Bool
  cbreakOn : Bool
  halfdelayOn : Bool
  echoOn : Bool
  nodelayOn : Bool
  leaveokOn : Bool
  cursorVisible : Bool
  mouseMaskOn : Bool
  attached : Bool
deriving DecidableEq, Repr

/-- `UI.initialize` (ui.py:53-83), line by line: `win.leaveok(0)`,
`win.keypad(1)`, `self.load_mode = False`, `curses.cbreak()`,
`curses.noecho()`, `curses.halfdelay(20)`, `curses.curs_set(...)` inside
`try/except` (modelled by the capability flag `cursOk`: when the terminal
cannot change cursor visibility the exception is swallowed and the state is
unchanged), mouse mask on, and finally the `is_set_up` latch guarding the
one-time `setup()` call.  `curses.start_color`, `use_default_colors`,
`mouseinterval(0)` and `ungetmouse` have no effect on the modelled fields. -/
def uiInit (cursOk showCursor : Bool) (s : SessionState) : SessionState :=
  let s1 := { s with leaveokOn := false, keypadOn := true, loadMode := false,
                     cbreakOn := true, echoOn := false, halfdelayOn := true }
  let s2 := if cursOk then { s1 with cursorVisible := showCursor } else s1
  let s3 := { s2 with mouseMaskOn := true, attached := true }
  if s3.isSetUp then s3
  else { s3 with isSetUp := true, setupCount := s3.setupCount + 1 }

/-- `UI.suspend` (ui.py:85-95): `win.keypad(0)`, `curses.nocbreak()` (which
also cancels any half-delay timeout), `curses.echo()`, best-effort
`curses.curs_set(1)` in `try/except` (capability flag `cursOk`),
`curses.mousemask(0)`, `curses.endwin()`. -/
def uiSuspend (cursOk : Bool) (s : SessionState) : SessionState :=
  let s1 := { s with keypadOn := false, cbreakOn := false, halfdelayOn := false,
                     echoOn := true }
  let s2 := if cursOk then { s1 with cursorVisible := true } else s1
  { s2 with mouseMaskOn := false, attached := false }

/-- `UI.set_load_mode` (ui.py:97-108): no-op when the requested state equals
the current one; enabling does `curses.cbreak(); win.nodelay(1)` (cbreak
cancels the half-delay timeout); disabling does `win.nodelay(0);
curses.halfdelay(20)` (half-delay implies cbreak). -/
def setLoadModeS (b : Bool) (s : SessionState) : SessionState :=
  if b ≠ s.loadMode then
    if b then
      { s with loadMode := b, cbreakOn := true, halfdelayOn := false,
               nodelayOn := true }
    else
      { s with loadMode := b, nodelayOn := false, halfdelayOn := true,
               cbreakOn := true }
  else s

/-- `n` successive calls to `UI.initialize` (same cursor capability and
show-cursor setting each time). -/
def uiInitN (cursOk showCursor : Bool) : Nat → SessionState → SessionState
  | 0, s => s
  | n + 1, s => uiInitN cursOk showCursor n (uiInit cursOk showCursor s)

/-- A session state as it is before the first `initialize`: the class-level
defaults `is_set_up = False`, `load_mode = False` (ui.py:31-33); the hook
counter starts at 0. -/
def freshSession : SessionState :=
  { loadMode := false, isSetUp := false, setupCount := 0, keypadOn := false,
    cbreakOn := false, halfdelayOn := false, echoOn := true,
    nodelayOn := false, leaveokOn := true, cursorVisible := true,
    mouseMaskOn := false, attached := false }

lemma uiInit_isSetUp (cursOk showCursor : Bool) (s : SessionState) :
    (uiInit cursOk showCursor s).isSetUp = true := by
  unfold uiInit
  by_cases h : cursOk <;> simp [h] <;> split <;> simp_all

lemma uiInit_setupCount_of_setUp (cursOk showCursor : Bool) (s : SessionState)
    (h : s.isSetUp = true) :
    (uiInit cursOk showCursor s).setupCount = s.setupCount := by
  unfold uiInit
  by_cases hc : cursOk <;> simp [hc, h]

lemma uiInit_setupCount_of_fresh (cursOk showCursor : Bool) (s : SessionState)
    (h : s.isSetUp = false) :
    (uiInit cursOk showCursor s).setupCount = s.setupCount + 1 := by
  unfold uiInit
  by_cases hc : cursOk <;> simp [hc, h]

lemma uiInitN_setupCount_of_setUp (cursOk showCursor : Bool) (n : Nat)
    (s : SessionState) (h : s.isSetUp = true) :
    (uiInitN cursOk showCursor n s).setupCount = s.setupCount := by
  induction n generalizing s with
  | zero => rfl
  | succ n ih =>
      rw [uiInitN, ih (uiInit cursOk showCursor s) (uiInit_isSetUp _ _ _),
        uiInit_setupCount_of_setUp _ _ _ h]

/-! ## Input dispatch: `UI.handle_key` and `UI.handle_input` -/

/-- Outcome of invoking a resolved command's function with
`CommandArgs.from_widget(self.fm)` (ui.py:150): either it returns normally or
it raises an exception, carried as the `.error` payload (ui.py:151). -/
abbrev CmdRun := Except String Unit

/-- A resolved command as read off `keybuffer.command` (ui.py:136): its
`function` attribute is either absent (`none`, the `else` branch of
ui.py:148) or the callable whose invocation outcome is recorded. -/
structure Cmd where
  function : Option CmdRun

/-- The external collaborators consumed by `UI.handle_key` and
`UI.handle_input`, as pure parameters: the widget tree's `press` (ui.py:132),
the KeyBuffer resolver read through `kbuf.failure` / `kbuf.command` /
`kbuf.done` as functions of the accumulated key list (ui.py:135-153), the
optional `hint` hook (`hasattr(self, 'hint')`, ui.py:127), and the
`settings.flushinput` flag (ui.py:172). -/
structure Env where
  press : Int → Bool
  failure : List Int → Bool
  done : List Int → Bool
  command : List Int → Option Cmd
  hasHint : Bool
  flushinput : Bool

/-- Mutable state threaded through key dispatch: the KeyBuffer's accumulated
keys, the list of errors passed to `fm.notify` (ui.py:152), the count of
command-function invocations (ui.py:150), the `fm.hide_bookmarks()` flag
(ui.py:138), `env.cmd` (ui.py:146), the count of `hint` calls (ui.py:128),
and the `load_mode` flag toggled by `handle_input` (ui.py:162-170). -/
structure DispState where
  loadMode : Bool
  buffer : List Int
  notified : List String
  executed : Nat
  bookmarksHidden : Bool
  envCmd : Option Cmd
  hintCalls : Nat

/-- Modelled from the spec: `Environment.key_append` (ui.py:130) lives in
`ranger/container/environment.py`, which is not part of the given source.
Per the spec, the router records the key and "appends the key into the
KeyBuffer", whose external contract is `append(key)`; `handle_key` then reads
`kbuf.failure` / `kbuf.command` / `kbuf.done` with no other append in sight,
so `key_append` appends the key to the KeyBuffer's accumulated sequence. -/
def key_append (key : Int) (s : DispState) : DispState :=
  { s with buffer := s.buffer ++ [key] }

/-- `UI.handle_key` (ui.py:124-156), step by step: optional `hint` hook,
`env.key_append(key)`, early return when `press` consumes the key, then
`fm.hide_bookmarks()`, the `kbuf.failure` clear-and-stop, the
"no command resolved yet" stop, `env.cmd = cmd`, and finally either running
`cmd.function` inside `try/except` (errors go to `fm.notify`, then the buffer
is cleared when `kbuf.done`) or, with no function, an unconditional clear. -/
def handle_key (E : Env) (key : Int) (s : DispState) : DispState :=
  let s1 := if E.hasHint then { s with hintCalls := s.hintCalls + 1 } else s
  let s2 := key_append key s1
  if E.press key then s2
  else
    let buf := s2.buffer
    let cmd := E.command buf
    let s3 := { s2 with bookmarksHidden := true }
    if E.failure buf then { s3 with buffer := [] }
    else
      match cmd with
      | none => s3
      | some c =>
          let s4 := { s3 with envCmd := some c }
          match c.function with
          | some run =>
              let s5 := { s4 with executed := s4.executed + 1,
                                  notified := s4.notified ++
                                    (match run with
                                     | .ok _ => []
                                     | .error e => [e]) }
              if E.done buf then { s5 with buffer := [] } else s5
          | none => { s4 with buffer := [] }

/-- One `win.getch()` against the queue of immediately-available key codes:
returns the next code, or the curses sentinel `-1` when nothing is ready
(non-blocking mode, or a blocking read timing out). -/
def getch : List Int → Int × List Int
  | [] => (-1, [])
  | k :: rest => (k, rest)

/-- The probe loop `for n in range(8)` of `UI.handle_input` (ui.py:164-167):
`n` non-blocking `getch` probes, appending each result that is not `-1`, in
order; returns the collected codes and the remaining queue. -/
def collect : Nat → List Int → List Int × List Int
  | 0, st => ([], st)
  | n + 1, st =>
      let p := getch st
      let r := collect n p.2
      if p.1 ≠ -1 then (p.1 :: r.1, r.2) else r

/-- Observable actions of one `handle_input` call, in program order: a key
delivered through `handle_key`, or a `set_load_mode` call with its
argument. -/
inductive Action where
  | deliver (k : Int)
  | setLoad (b : Bool)
deriving DecidableEq, Repr

/-- Result of one `UI.handle_input` call: the ordered trace of
`handle_key`/`set_load_mode` actions, the dispatch state after the call, and
the key codes still queued. -/
structure HIResult where
  trace : List Action
  state : DispState
  rest : List Int

/-- The `load_mode` effect of `set_load_mode` on the dispatch state
(ui.py:97-100): the flag is written only when the requested value differs. -/
def setLoadModeD (b : Bool) (s : DispState) : DispState :=
  if b ≠ s.loadMode then { s with loadMode := b } else s

/-- `UI.handle_input` (ui.py:158-175): one `getch`; when the code is the
Escape/Alt lead 27 or the UTF-8 lead 195, remember `load_mode`, force load
mode on, run the 8-probe `collect`, replay the lead plus every collected code
through `handle_key` in order, then restore the remembered `load_mode`;
otherwise optionally `flushinp()` the queue and hand a single positive code
to `handle_key`. -/
def handle_input (E : Env) (stream : List Int) (s : DispState) : HIResult :=
  let g := getch stream
  let key := g.1
  if key = 27 ∨ key = 195 then
    let prev := s.loadMode
    let s1 := setLoadModeD true s
    let c := collect 8 g.2
    let keys := key :: c.1
    let s2 := keys.foldl (fun acc k => handle_key E k acc) s1
    let s3 := setLoadModeD prev s2
    { trace := Action.setLoad true :: (keys.map Action.deliver
        ++ [Action.setLoad prev]),
      state := s3, rest := c.2 }
  else
    let rest := if E.flushinput then [] else g.2
    if key > 0 then
      { trace := [Action.deliver key], state := handle_key E key s,
        rest := rest }
    else
      { trace := [], state := s, rest := rest }

/-- The key codes a trace delivers through `handle_key`, in order. -/
def delivered (tr : List Action) : List Int :=
  tr.filterMap fun a => match a with
  | Action.deliver k => some k
  | Action.setLoad _ => none

/-- `true` when some `set_load_mode` call occurs after a key delivery in the
trace — i.e. when the load-mode restore does NOT precede the replay. -/
def setLoadAfterDeliver (tr : List Action) : Bool :=
  (tr.dropWhile fun a => match a with
    | Action.deliver _ => false
    | Action.setLoad _ => true).any fun a => match a with
    | Action.deliver _ => false
    | Action.setLoad _ => true

/-! ## Window-title path computation in `UI.draw` (ui.py:204-217) -/

/-- Python's `str.split(sep)` for a one-character separator, on the
character list of the string: every maximal run between separators becomes a
field (empty fields included), and the empty string yields one empty
field. -/
def splitOnChar (sep : Char) : List Char → List (List Char)
  | [] => [[]]
  | a :: rest =>
      match splitOnChar sep rest with
      | [] => [[a]]
      | f :: fs => if a = sep then [] :: f :: fs else (a :: f) :: fs

/-- Python's `str.rsplit(sep, maxsplit)` for a one-character separator: split
at the `m` rightmost occurrences of `sep` (fewer when there are fewer
occurrences).  With fields `f1 .. fk` this yields the first `k - m` fields
rejoined, followed by the last `m` fields. -/
def pyRsplitL (s : List Char) (sep : Char) (m : Nat) : List (List Char) :=
  let fields := splitOnChar sep s
  if fields.length ≤ m + 1 then fields
  else
    List.intercalate [sep] (fields.take (fields.length - m))
      :: fields.drop (fields.length - m)

/-- The display path computed by `UI.draw` (ui.py:209-215), on character
lists: collapse the home-directory prefix to `~` (`cwd.startswith(home_path)`
then slice), and when the `shorten_title` setting is truthy (non-zero),
right-split on the path separator keeping at most `shorten_title` rightmost
segments — the truncation applies only if the head of the split still
contains a separator (`os.sep in split[0]`). -/
def titleCwdL (cwd home : List Char) (shorten : Nat) : List Char :=
  let c1 := if home.isPrefixOf cwd then '~' :: cwd.drop home.length else cwd
  if shorten ≠ 0 then
    match pyRsplitL c1 '/' shorten with
    | [] => c1
    | s0 :: restParts =>
        if s0.contains '/' then List.intercalate ['/'] restParts else c1
  else c1

/-- String-level wrapper for `titleCwdL`. -/
def titleCwd (cwd homePath : String) (shortenTitle : Nat) : String :=
  String.mk (titleCwdL cwd.toList homePath.toList shortenTitle)

/-- The title escape sequence emitted by `UI.draw` (ui.py:208-216): only when
the terminal is title-capable (`self._draw_title`) and the `update_title`
setting is enabled, the literal `ESC ] 2 ; ranger:<path> BEL` is written. -/
def titleEscape (drawTitle updateTitle : Bool) (cwd homePath : String)
    (shortenTitle : Nat) : Option String :=
  if drawTitle && updateTitle then
    some ("\x1b]2;ranger:" ++ titleCwd cwd homePath shortenTitle ++ "\x07")
  else none

/-! ## Sample collaborators used by witnesses and counterexamples -/

/-- A baseline environment: the widget tree consumes nothing, the KeyBuffer
never fails, never completes, resolves no command; no hint hook, no input
flushing. -/
def E0 : Env :=
  { press := fun _ => false, failure := fun _ => false, done := fun _ => false,
    command := fun _ => none, hasHint := false, flushinput := false }

/-- An environment whose widget tree consumes every key. -/
def Epress : Env := { E0 with press := fun _ => true }

/-- An environment resolving every buffer to a command whose function raises
the exception `"boom"`, with the buffer reported as `done`. -/
def Eraise : Env :=
  { E0 with command := fun _ => some { function := some (Except.error "boom") },
            done := fun _ => true }

/-- An environment resolving every buffer to a command with no executable
function. -/
def Enofn : Env :=
  { E0 with command := fun _ => some { function := none } }

/-- A quiescent dispatch state: load mode off, empty KeyBuffer, nothing
notified or executed. -/
def D0 : DispState :=
  { loadMode := false, buffer := [], notified := [], executed := 0,
    bookmarksHidden := false, envCmd := none, hintCalls := 0 }

/-- Twenty key codes, all immediately available. -/
def twentyCodes : List Int :=
  [1, 2, 3, 4, 5, 6, 7, 8, 9, 10, 11, 12, 13, 14, 15, 16, 17, 18, 19, 20]

/-! ## Helper lemmas -/

lemma setLoadModeD_loadMode (b : Bool) (s : DispState) :
    (setLoadModeD b s).loadMode = b := by
  unfold setLoadModeD
  split
  · rfl
  · simp_all

lemma handle_key_loadMode (E : Env) (k : Int) (s : DispState) :
    (handle_key E k s).loadMode = s.loadMode := by
  unfold handle_key key_append
  by_cases h1 : E.hasHint <;>
    simp only [h1, if_true, if_false, ite_true, ite_false] <;>
    (repeat' split) <;> rfl

lemma foldl_handle_key_loadMode (E : Env) (keys : List Int) (s : DispState) :
    (keys.foldl (fun acc k => handle_key E k acc) s).loadMode = s.loadMode := by
  induction keys generalizing s with
  | nil => rfl
  | cons k ks ih => rw [List.foldl_cons, ih, handle_key_loadMode]

lemma hi_loadMode (E : Env) (stream : List Int) (s : DispState) :
    (handle_input E stream s).state.loadMode = s.loadMode := by
  unfold handle_input
  dsimp only
  split
  · rw [setLoadModeD_loadMode]
  · split
    · exact handle_key_loadMode _ _ _
    · rfl

lemma collect_nil (n : Nat) : collect n [] = ([], []) := by
  induction n with
  | zero => rfl
  | succ n ih => simp [collect, getch, ih]

lemma collect_eq_take_drop (n : Nat) (st : List Int)
    (h : (-1 : Int) ∉ st) :
    collect n st = (st.take n, st.drop n) := by
  induction n generalizing st with
  | zero => simp [collect]
  | succ n ih =>
      cases st with
      | nil => simp [collect_nil]
      | cons k rest =>
          simp only [List.mem_cons, not_or] at h
          have hk : k ≠ -1 := fun hke => h.1 hke.symm
          simp [collect, getch, ih rest h.2, hk]

lemma hi_escape_trace (E : Env) (k : Int) (rest : List Int) (s : DispState)
    (hk : k = 27 ∨ k = 195) :
    (handle_input E (k :: rest) s).trace
      = Action.setLoad true :: ((k :: (collect 8 rest).1).map Action.deliver
          ++ [Action.setLoad s.loadMode]) := by
  unfold handle_input getch
  dsimp only
  rw [if_pos hk]

lemma delivered_shape (b : Bool) (ks : List Int) (b2 : Bool) :
    delivered (Action.setLoad b ::
      (ks.map Action.deliver ++ [Action.setLoad b2])) = ks := by
  induction ks with
  | nil => rfl
  | cons x xs ih =>
      simpa [delivered, List.filterMap_cons] using ih

/-! ## Claim theorems -/

/-- Claim C1: for an input stream whose first code is the Escape/lead code
(27 or 195), `handle_input` delivers through `handle_key` exactly the lead
code followed, in order, by the immediately-available follow-up codes taken
by at most 8 non-blocking probe reads (`-1` probes discarded): with nothing
queued the delivery is `[27]` alone, and with 20 codes queued only the first
8 follow-ups are delivered — never more than 9 keys in total. -/
theorem escape_lookahead_delivery (E : Env) (k : Int) (rest : List Int)
    (s : DispState) (hk : k = 27 ∨ k = 195) (hrest : (-1 : Int) ∉ rest) :
    delivered (handle_input E (k :: rest) s).trace = k :: rest.take 8 ∧
    (delivered (handle_input E (k :: rest) s).trace).length ≤ 9 := by
  rw [hi_escape_trace E k rest s hk, collect_eq_take_drop 8 rest hrest]
  constructor
  · exact delivered_shape true (k :: rest.take 8) s.loadMode
  · rw [delivered_shape true (k :: rest.take 8) s.loadMode]
    simp [List.length_take]

/-- Witness for C1 at Escape followed by 20 queued codes. -/
theorem escape_lookahead_delivery_witness :
    delivered (handle_input E0 ((27 : Int) :: twentyCodes) D0).trace
        = 27 :: twentyCodes.take 8 ∧
    (delivered (handle_input E0 ((27 : Int) :: twentyCodes) D0).trace).length
        ≤ 9 :=
  escape_lookahead_delivery E0 27 twentyCodes D0 (Or.inl rfl) (by decide)

/-- Claim C2 counterexample: on the stream `[27]` with load mode off, the
trace of `handle_input` is enable, deliver, restore — a `set_load_mode` call
(the restore, ui.py:170) occurs AFTER a key delivery (ui.py:168-169), so the
restore does not precede the replay as the claim states. -/
theorem restore_before_replay_false :
    (handle_input E0 [27] D0).trace
        = [Action.setLoad true, Action.deliver 27, Action.setLoad false] ∧
    setLoadAfterDeliver (handle_input E0 [27] D0).trace = true := by
  constructor <;> rfl

/-- Claim C2 (amended): during the Escape-lead lookahead the decoder delivers
the entire collected sequence first, in order, and only then restores the
prior load-mode state — the restore is the last action of the trace, after
every delivery — and the load-mode flag ends equal to its prior value. -/
theorem replay_then_restore (E : Env) (k : Int) (rest : List Int)
    (s : DispState) (hk : k = 27 ∨ k = 195) :
    (handle_input E (k :: rest) s).trace
      = Action.setLoad true :: ((k :: (collect 8 rest).1).map Action.deliver
          ++ [Action.setLoad s.loadMode]) ∧
    (handle_input E (k :: rest) s).state.loadMode = s.loadMode :=
  ⟨hi_escape_trace E k rest s hk, hi_loadMode E (k :: rest) s⟩

/-- Witness for the amended C2 at the stream `[27]`. -/
theorem replay_then_restore_witness :
    (handle_input E0 ((27 : Int) :: []) D0).trace
      = Action.setLoad true
          :: (((27 : Int) :: (collect 8 []).1).map Action.deliver
              ++ [Action.setLoad D0.loadMode]) ∧
    (handle_input E0 ((27 : Int) :: []) D0).state.loadMode = D0.loadMode :=
  replay_then_restore E0 27 [] D0 (Or.inl rfl)

/-- Claim C3 counterexample: with a widget tree that consumes every key,
`handle_key` still changes the KeyBuffer — `env.key_append(key)` (ui.py:130)
runs before `press` is consulted (ui.py:132), so the buffer gains the key
even though `press` returned true. -/
theorem keybuffer_unchanged_on_press_false :
    (handle_key Epress 5 D0).buffer ≠ D0.buffer := by
  decide

/-- Claim C3 (amended): the key is appended into the KeyBuffer BEFORE the
widget tree's `press()` is offered the key; when `press()` consumes it,
routing stops there — the buffer keeps exactly the appended key, and no
notification, no command execution, no bookmark-hiding and no `env.cmd`
update happen. -/
theorem append_precedes_press (E : Env) (key : Int) (s : DispState)
    (h : E.press key = true) :
    (handle_key E key s).buffer = s.buffer ++ [key] ∧
    (handle_key E key s).notified = s.notified ∧
    (handle_key E key s).executed = s.executed ∧
    (handle_key E key s).bookmarksHidden = s.bookmarksHidden ∧
    (handle_key E key s).envCmd = s.envCmd := by
  unfold handle_key key_append
  by_cases h1 : E.hasHint <;> simp [h1, h]

/-- Witness for the amended C3: a consuming widget tree, key 5. -/
theorem append_precedes_press_witness :
    (handle_key Epress 5 D0).buffer = D0.buffer ++ [5] ∧
    (handle_key Epress 5 D0).notified = D0.notified ∧
    (handle_key Epress 5 D0).executed = D0.executed ∧
    (handle_key Epress 5 D0).bookmarksHidden = D0.bookmarksHidden ∧
    (handle_key Epress 5 D0).envCmd = D0.envCmd :=
  append_precedes_press Epress 5 D0 rfl

/-- Claim C4: across `n ≥ 1` calls to `initialize()` in one process lifetime
the one-time `setup()` hook fires exactly once — the `is_set_up` latch
(ui.py:80-82) is checked and set so that `setup()` never runs on a later
call. -/
theorem setup_fires_once (cursOk showCursor : Bool) (n : Nat)
    (s : SessionState) (h0 : s.isSetUp = false) (hn : 1 ≤ n) :
    (uiInitN cursOk showCursor n s).setupCount = s.setupCount + 1 := by
  obtain ⟨m, rfl⟩ : ∃ m, n = m + 1 := ⟨n - 1, by omega⟩
  simp only [uiInitN]
  rw [uiInitN_setupCount_of_setUp cursOk showCursor m _ (uiInit_isSetUp _ _ _),
    uiInit_setupCount_of_fresh _ _ _ h0]

/-- Witness for C4: three `initialize()` calls from process start. -/
theorem setup_fires_once_witness :
    (uiInitN true true 3 freshSession).setupCount
        = freshSession.setupCount + 1 :=
  setup_fires_once true true 3 freshSession rfl (by decide)

/-- Claim C5: every `handle_input` call that completes leaves the load-mode
flag equal to its value before the call — the temporary enabling during the
Escape lookahead (ui.py:163) is always paired with the restoration of the
remembered previous value (ui.py:162, 170), and the non-Escape path never
touches the flag. -/
theorem load_mode_restored (E : Env) (stream : List Int) (s : DispState) :
    (handle_input E stream s).state.loadMode = s.loadMode :=
  hi_loadMode E stream s

/-- Claim C6: when the resolved command's function raises inside
`handle_key`, the exception is caught at the dispatch boundary (ui.py:149-152)
— `handle_key` still returns a state — `fm.notify` receives exactly one
report of the error, and the KeyBuffer is cleared if and only if the buffer's
`done` flag is set (ui.py:153-154). -/
theorem command_error_isolated (E : Env) (key : Int) (s : DispState)
    (c : Cmd) (e : String)
    (hp : E.press key = false)
    (hf : E.failure (s.buffer ++ [key]) = false)
    (hc : E.command (s.buffer ++ [key]) = some c)
    (hr : c.function = some (Except.error e)) :
    (handle_key E key s).notified = s.notified ++ [e] ∧
    ((handle_key E key s).buffer = [] ↔ E.done (s.buffer ++ [key]) = true) := by
  unfold handle_key key_append
  by_cases h1 : E.hasHint <;>
    simp only [h1, if_true, if_false, ite_true, ite_false] <;>
    simp [hp, hf, hc, hr] <;>
    by_cases hd : E.done (s.buffer ++ [key]) = true <;> simp [hd]

/-- Witness for C6: a command raising `"boom"` on key 5 with `done` set. -/
theorem command_error_isolated_witness :
    (handle_key Eraise 5 D0).notified = D0.notified ++ ["boom"] ∧
    ((handle_key Eraise 5 D0).buffer = []
        ↔ Eraise.done (D0.buffer ++ [5]) = true) :=
  command_error_isolated Eraise 5 D0
    { function := some (Except.error "boom") } "boom" rfl rfl rfl rfl

/-- Claim C7: with a title-capable terminal and title updates enabled,
current directory `/home/alice/a/b/c/d`, home `/home/alice` and
shorten-depth 2, `draw()` computes the title path `c/d` (home collapsed to
`~`, then right-truncated to the rightmost 2 segments) and emits the title
escape sequence around it. -/
theorem title_truncation :
    titleCwd "/home/alice/a/b/c/d" "/home/alice" 2 = "c/d" ∧
    titleEscape true true "/home/alice/a/b/c/d" "/home/alice" 2
      = some "\x1b]2;ranger:c/d\x07" := by
  constructor <;> decide

/-- Claim C8: `suspend()` is idempotent on the terminal-mode state — a second
call on an already-suspended session produces exactly the state after one
call (keypad off, cooked mode, echo on, cursor visible best-effort, mouse
reporting off, detached). -/
theorem suspend_idempotent (cursOk : Bool) (s : SessionState) :
    uiSuspend cursOk (uiSuspend cursOk s) = uiSuspend cursOk s := by
  cases cursOk <;> rfl

/-- Claim C9: every `initialize()` call writes `load_mode = False`
(ui.py:57) regardless of the prior value, so re-initializing after a
suspension always returns the session to blocking-with-timeout input mode. -/
theorem init_clears_load_mode (cursOk showCursor : Bool) (s : SessionState) :
    (uiInit cursOk showCursor s).loadMode = false := by
  unfold uiInit
  dsimp only
  (repeat' split) <;> rfl

/-- Claim C10: when the key is unconsumed, the buffer reports neither failure
nor an unresolved command, but the resolved command has no executable
function, `handle_key` clears the KeyBuffer unconditionally (the `else`
branch at ui.py:155-156, with no `done` check), executes nothing and issues
no notification. -/
theorem missing_function_clears_buffer (E : Env) (key : Int) (s : DispState)
    (c : Cmd)
    (hp : E.press key = false)
    (hf : E.failure (s.buffer ++ [key]) = false)
    (hc : E.command (s.buffer ++ [key]) = some c)
    (hfn : c.function = none) :
    (handle_key E key s).buffer = [] ∧
    (handle_key E key s).notified = s.notified ∧
    (handle_key E key s).executed = s.executed := by
  unfold handle_key key_append
  by_cases h1 : E.hasHint <;> simp [h1, hp, hf, hc, hfn]

/-- Witness for C10: a resolved command with no function, key 5. -/
theorem missing_function_clears_buffer_witness :
    (handle_key Enofn 5 D0).buffer = [] ∧
    (handle_key Enofn 5 D0).notified = D0.notified ∧
    (handle_key Enofn 5 D0).executed = D0.executed :=
  missing_function_clears_buffer Enofn 5 D0 { function := none } rfl rfl rfl rfl

end RangerUI
